import Mathlib

/-!
Verification development for the Nova2Sonic A2UI session server
(`server/app/main.py` and the agent core under `server/app/agent/`).

The Python runtime is shallowly embedded: session state dictionaries become
Lean structures over a JSON-like value type, the outbox-draining algorithm
`process_outbox`, the voice-path turn handler `handle_finished_for_sid`,
the `client.text` path, the `client.audio.interrupt` handler, the stale-session
callback guards of `start_sonic_stt`, the invocation adapter `invoke_graph`
and the lost-card persistence hook are translated function by function.

Two aspects of the environment are abstracted as parameters rather than
translated, because no property below depends on their behaviour:
the dialogue engine itself (the spec treats graph internals as a black box;
it appears as a `SState → Except String SState` argument, errors modelling a
raising `graph.invoke`), and the pure text formatter `format_stt_transcript`
(a `String → String` argument).  Python dict mutation and object identity are
made explicit: the drain returns, besides its outputs and the new session
data, the post-drain snapshot list (the same event objects, with any in-place
payload mutation applied), and Nova Sonic session objects are identified by
numeric tokens so that the callbacks' `is not` identity test is expressible.
-/

namespace A2UI

/-! ## JSON-like values and Python dict semantics -/

/-- A Python/JSON value as it occurs in session state and event payloads. -/
inductive Val where
  | vnull
  | vbool (b : Bool)
  | vstr (s : String)
  | vint (n : Int)
  | vlist (l : List Val)
  | vdict (l : List (String × Val))

/-- An insertion-ordered string-keyed dictionary, as Python dicts are. -/
abbrev Dict := List (String × Val)

/-- `d.get(k)` / `d.get(k, None)`. -/
def dget (d : Dict) (k : String) : Option Val :=
  (d.find? (fun p => p.1 == k)).map (fun p => p.2)

/-- `d.get(k, v)` with an explicit default. -/
def dgetD (d : Dict) (k : String) (v : Val) : Val :=
  (dget d k).getD v

/-- `d[k] = v` on a Python dict: update in place if the key exists
(keeping its position), otherwise append the new key at the end. -/
def dset (d : Dict) (k : String) (v : Val) : Dict :=
  if (d.find? (fun p => p.1 == k)).isSome then
    d.map (fun p => if p.1 == k then (k, v) else p)
  else
    d ++ [(k, v)]

/-- Python `{**a, **b}` dict merge: keys of `a` in their order, values
overridden by `b` where present, then keys only in `b` appended. -/
def dmerge (a b : Dict) : Dict :=
  a.map (fun p => (p.1, (dget b p.1).getD p.2)) ++
    b.filter (fun p => (dget a p.1).isNone)

/-- Python truthiness of a value. -/
def truthy : Val → Bool
  | .vnull => false
  | .vbool b => b
  | .vstr s => !(s == "")
  | .vint n => !(n == 0)
  | .vlist l => !l.isEmpty
  | .vdict d => !d.isEmpty

/-- `payload.get(k, "") or ""` on string-valued payload entries:
missing keys and non-string or falsy values collapse to `""`. -/
def strOrEmpty : Option Val → String
  | some (.vstr s) => s
  | _ => ""

/-! ## Text helpers

Character-list implementations of the Python string operations used by the
runtime (`str.strip`, substring `in`, `str.startswith`, `"sep".join`). -/

/-- Python `str.strip()`. -/
def sTrim (s : String) : String :=
  ⟨((s.toList.dropWhile Char.isWhitespace).reverse.dropWhile Char.isWhitespace).reverse⟩

/-- Python substring test `needle in hay`. -/
def isSubstr (needle hay : String) : Bool :=
  hay.toList.tails.any (fun t => needle.toList.isPrefixOf t)

/-- Python `"".join(parts)`. -/
def sJoin (parts : List String) : String :=
  String.join parts

/-- Python `" ".join(parts)`. -/
def sJoinSpace (parts : List String) : String :=
  String.intercalate " " parts

/-- Python `s.startswith(p)`. -/
def sStartsWith (p s : String) : Bool :=
  p.toList.isPrefixOf s.toList

/-- Python `s.endswith(".")` for a one-character suffix. -/
def sEndsWithChar (s : String) (c : Char) : Bool :=
  s.toList.getLast? == some c

/-- Everything after the first comma, for `image_b64.split(",", 1)[1]`. -/
def afterFirstComma : List Char → Option (List Char)
  | [] => none
  | c :: rest => if c == ',' then some rest else afterFirstComma rest

/-- `image_b64.split(",", 1)[1] if image_b64.startswith("data:")` — strip a
data-URL header from an inline image. -/
def stripDataUrl (s : String) : String :=
  if sStartsWith "data:" s then
    match afterFirstComma s.toList with
    | some rest => ⟨rest⟩
    | none => s
  else s

/-! ## Events, messages and session state (`contracts.py`, `main.py`) -/

/-- One entry of `state["outbox"]` — `ServerEvent` in `contracts.py`:
the runtime reads only `type` and `payload`. -/
structure Event where
  type : String
  payload : Dict

/-- One entry of `state["messages"]`. -/
structure Msg where
  role : String
  text : String
  image : Option String

/-- The `CommonState` envelope of `contracts.py`: the state keys read by the
runtime.  Domain data is keyed by plugin id under `domain`. -/
structure SState where
  mode : String
  device : String
  transcript : String
  messages : List Msg
  ui : Dict
  errors : Option Val
  pendingAction : Option Val
  outbox : List Event
  meta : Dict
  domain : List (String × Dict)
  state_version : Nat

/-- `state.get("domain", {}).get(pid, {})`. -/
def domGet (dom : List (String × Dict)) (pid : String) : Dict :=
  ((dom.find? (fun p => p.1 == pid)).map (fun p => p.2)).getD []

/-- One per-connection entry of the module-level `sessions` dict in
`main.py`, together with the ad-hoc flags the handlers store in it.
`sonic` holds the identity token of the active `NovaSonicSession` object
(`none` once reset), `sonic_active` its `is_active` flag, and `tts_active`
stands for `tts_task is not None and not tts_task.done()`. -/
structure SessionData where
  agent_id : String
  state : SState
  voice_playing : Bool
  tts_active : Bool
  processing_outbox : Bool
  handling_finished : Bool
  sonic : Option Nat
  sonic_active : Bool
  user_transcripts : List String
  assist_buffer : List String

/-- One observable effect of a handler: a `send_msg` WebSocket frame, or
spawning the background TTS task `run_tts_inline` for an utterance. -/
inductive Out where
  | send (type : String) (payload : Dict)
  | spawnTTS (text : String)

/-! ## Plugins and registry (`contracts.py`, `registry.py`, the plugin
modules under `agent/plugins/`)

A plugin is identified by its id and its `create_initial_state()` result;
graph internals are black boxes (see header).  The process-wide registry is a
lookup function, mirroring `_registry.get(agent_id)`. -/

structure Plugin where
  plugin_id : String
  initial : SState

/-- `MortgagePlugin.create_initial_state` (`plugins/mortgage/plugin.py`). -/
def mortgageInitialState : SState :=
  { mode := "text"
    device := "desktop"
    transcript := ""
    messages := []
    ui := [("surfaceId", .vstr "main"), ("state", .vstr "LOADING")]
    errors := none
    pendingAction := none
    outbox := []
    meta := []
    state_version := 1
    domain :=
      [("mortgage",
        [("branch_requested", .vbool false),
         ("address_validation_failed", .vbool false),
         ("last_attempted_address", .vnull),
         ("trouble_count", .vint 0),
         ("show_support", .vbool false),
         ("existing_customer", .vnull),
         ("property_seen", .vnull),
         ("process_question", .vnull),
         ("intent",
          .vdict [("propertyValue", .vnull), ("loanBalance", .vnull),
                  ("fixYears", .vnull), ("termYears", .vint 25)]),
         ("ltv", .vint 0),
         ("products", .vlist []),
         ("selection", .vdict [])])] }

/-- The `defaults` dict of `LostCardPlugin.create_initial_state`
(`plugins/lost_card/plugin.py`). -/
def lostCardDefaults : Dict :=
  [("card_status", .vstr "active"),
   ("card_last4", .vnull),
   ("freeze_confirmed", .vbool false),
   ("replacement_requested", .vbool false),
   ("replacement_eta", .vnull),
   ("identity_verified", .vbool false),
   ("risk_level", .vstr "low"),
   ("suspicious_tx", .vlist []),
   ("branch_requested", .vbool false),
   ("escalation_required", .vbool false),
   ("audit_log", .vlist [])]

/-- `LostCardPlugin.create_initial_state`, parametrised by the domain dict
that `load_domain()` returns from the JSON store (`{}` for a new install):
`domain = {**defaults, **persisted}`. -/
def lostCardInitialState (persisted : Dict) : SState :=
  { mode := "text"
    device := "desktop"
    transcript := ""
    messages := []
    ui := [("surfaceId", .vstr "main"), ("state", .vstr "LOADING")]
    errors := none
    pendingAction := none
    outbox := []
    meta := []
    state_version := 1
    domain := [("lost_card", dmerge lostCardDefaults persisted)] }

def mortgagePlugin : Plugin :=
  { plugin_id := "mortgage", initial := mortgageInitialState }

def lostCardPlugin (persisted : Dict) : Plugin :=
  { plugin_id := "lost_card", initial := lostCardInitialState persisted }

/-- The registry contents after `load_all_plugins()` on a fresh install:
`get_plugin` returns the plugin or raises `KeyError` (here `none`). -/
def reg0 : String → Option Plugin := fun a =>
  if a == "mortgage" then some mortgagePlugin
  else if a == "lost_card" then some (lostCardPlugin [])
  else none

/-! ## Invocation adapter and persistence hook
(`runtime_adapter.py`, `plugins/lost_card/persistence.py`)

Fallible Python calls are embedded as `Except String`; the boolean oracle
`writeFails` stands for the JSON file write raising inside `save_domain`. -/

/-- The body of `save_domain` up to its `try`: strip ephemeral fields,
then perform the file write, which may raise. -/
def save_domain_body (writeFails : Bool) (domain : Dict) : Except String Unit :=
  let _toSave := domain.filter
    (fun p => !(p.1 == "suspicious_tx") && !(p.1 == "audit_log"))
  if writeFails then .error "OSError" else .ok ()

/-- `save_domain` (`persistence.py`): the whole body runs inside
`try/except`, so a failed write is logged and swallowed. -/
def save_domain (writeFails : Bool) (domain : Dict) : Except String Unit :=
  match save_domain_body writeFails domain with
  | .error _ => .ok ()
  | .ok u => .ok u

/-- `LostCardPlugin.post_invoke`: persist the domain slice after every
graph turn (`if domain: save_domain(domain)`). -/
def lostCardPostInvoke (writeFails : Bool) (st : SState) : Except String Unit :=
  let domain := domGet st.domain "lost_card"
  if !domain.isEmpty then save_domain writeFails domain else .ok ()

/-- `PluginBase.post_invoke` default implementation: a no-op. -/
def defaultPostInvoke (_st : SState) : Except String Unit := .ok ()

/-- `invoke_graph` (`runtime_adapter.py`): run the graph, then — only on
success — the plugin's `post_invoke` hook.  The second component counts how
many times the hook ran.  A graph exception propagates unmodified; an
exception escaping the hook would also propagate, exactly as in the source
(the adapter has no `try` around `plugin.post_invoke(result)`). -/
def invoke_graph (graph : SState → Except String SState)
    (post : SState → Except String Unit) (st : SState) :
    Except String SState × Nat :=
  match graph st with
  | .error e => (.error e, 0)
  | .ok result =>
    match post result with
    | .error e => (.error e, 1)
    | .ok _ => (.ok result, 1)

/-! ## The outbox drain `process_outbox` (`main.py` lines 346-481)

The drain is embedded as a pure function from the session entry to the
emitted outputs, the updated session entry, and the post-drain snapshot —
the very event objects of the snapshotted outbox list, with any in-place
payload mutation applied (pass 1 writes `payload["showSupport"]` into a
dict that aliases the stored event's payload whenever that payload is a
non-empty — truthy — dict; `event.get("payload", {}) or {}` yields a fresh
dict only for a missing or empty payload).

`cleared` below is the handler's local variable `state`: the session state
object at entry, whose `outbox` key the drain has already reset to `[]`.
After a hand-off the session entry points to a fresh state object, but the
local `state` still names the old one, so the show-support flag, the
text-only-mode test and the envelope fields copied by any later hand-off
all keep reading the pre-hand-off state. -/

/-- `event["type"] in _SKIP_TYPES` — events pass 1 does not deliver. -/
def isSkipType (t : String) : Bool :=
  t == "server.voice.say" || t == "server.audit.event" ||
    t == "server.internal.chain_action"

/-- The `showSupport` value merged into every UI-patch payload:
`domain.mortgage.show_support or domain.lost_card.show_support`, with
Python `or` returning its first truthy operand. -/
def showSupportFlag (st : SState) : Val :=
  let m := dgetD (domGet st.domain "mortgage") "show_support" (.vbool false)
  let l := dgetD (domGet st.domain "lost_card") "show_support" (.vbool false)
  if truthy m then m else l

/-- `set.add(txt)` on the ordered model of `assistant_transcripts_sent`. -/
def sentInsert (l : List String) (t : String) : List String :=
  if t ∈ l then l else l ++ [t]

/-- Hand-off state rebuild (`main.py` 394-401): the target plugin's
initial state with only the envelope keys `mode`, `device`, `messages`,
`meta` copied forward from the drain's local state. -/
def handoffState (p : Plugin) (st : SState) : SState :=
  { p.initial with
      mode := st.mode
      device := st.device
      messages := st.messages
      meta := st.meta }

/-- Result of pass 1 on one event: frames sent, agent id and session state
afterwards, already-sent-assistant-transcript set, and the stored event
object after delivery. -/
structure P1Step where
  outs : List Out
  agent : String
  sess : SState
  sent : List String
  ev : Event

/-- Pass-1 treatment of one outbox event (`main.py` 371-411): the frames it
sends, the session's agent id and state after it, the updated
already-sent-assistant-transcript set, and the stored event object after
delivery (mutated in place for a truthy UI-patch payload). -/
def pass1Event (reg : String → Option Plugin) (cleared : SState)
    (agent : String) (sess : SState) (sent : List String) (e : Event) :
    P1Step :=
  if isSkipType e.type then ⟨[], agent, sess, sent, e⟩
  else
    let payload :=
      if e.type == "server.a2ui.patch" then
        dset e.payload "showSupport" (showSupportFlag cleared)
      else e.payload
    let e' :=
      if e.type == "server.a2ui.patch" && !e.payload.isEmpty then
        { e with payload := payload }
      else e
    let agentSess :=
      if e.type == "server.internal.handoff" then
        match dget payload "agent_id" with
        | some v =>
          if truthy v then
            match v with
            | .vstr a =>
              match reg a with
              | some p => (a, handoffState p cleared)
              | none => (agent, sess)
            | _ => (agent, sess)
          else (agent, sess)
        | none => (agent, sess)
      else (agent, sess)
    let isAssistant :=
      match dget e.payload "role" with
      | some (.vstr r) => r == "assistant"
      | _ => false
    let sent' :=
      if e.type == "server.transcript.final" then
        if isAssistant then
          let txt := sTrim (strOrEmpty (dget e.payload "text"))
          if !(txt == "") then sentInsert sent txt else sent
        else sent
      else sent
    ⟨[.send e.type payload], agentSess.1, agentSess.2, sent', e'⟩

/-- Result of pass 1 over a whole event list. -/
structure P1Res where
  outs : List Out
  agent : String
  sess : SState
  sent : List String
  evs : List Event

/-- Pass 1 over the snapshotted outbox, in order. -/
def pass1 (reg : String → Option Plugin) (cleared : SState) :
    String → SState → List String → List Event → P1Res
  | agent, sess, sent, [] => ⟨[], agent, sess, sent, []⟩
  | agent, sess, sent, e :: rest =>
    let r1 := pass1Event reg cleared agent sess sent e
    let r2 := pass1 reg cleared r1.agent r1.sess r1.sent rest
    ⟨r1.outs ++ r2.outs, r2.agent, r2.sess, r2.sent, r1.ev :: r2.evs⟩

/-- `(event.get("payload", {}).get("text", "") or "").strip()`. -/
def voiceTextOf (e : Event) : String :=
  sTrim (strOrEmpty (dget e.payload "text"))

/-- The body of the pass-2 merge loop (`main.py` 422-439) on one stripped
fragment: skip empty fragments and exact or contained duplicates; a later
fragment containing everything merged so far replaces it; anything else is
appended. -/
def mergeStep (parts : List String) (t : String) : List String :=
  if t == "" then parts
  else if parts.isEmpty then [t]
  else
    let merged := sJoinSpace parts
    if t == merged || isSubstr t merged then parts
    else if isSubstr merged t then [t]
    else parts ++ [t]

/-- The pass-2 merge loop over the outbox: fold `mergeStep` over the
stripped text of every `server.voice.say` event. -/
def mergeVoice : List String → List Event → List String
  | parts, [] => parts
  | parts, e :: rest =>
    mergeVoice
      (if e.type == "server.voice.say" then mergeStep parts (voiceTextOf e)
       else parts)
      rest

/-- `text_to_speak = " ".join(voice_text_parts).strip()`. -/
def textToSpeak (events : List Event) : String :=
  sTrim (sJoinSpace (mergeVoice [] events))

/-- Result of pass 2: frames sent plus the session's `voice_playing` and
`tts_active` values afterwards. -/
structure P2Res where
  outs : List Out
  vp : Bool
  tts : Bool

/-- Pass 2 (`main.py` 413-476): echo the merged utterance as an assistant
transcript unless pass 1 already sent it, then decide whether to start a
TTS task.  `ttsSettles` resolves the bounded 3-second grace wait on an
in-flight TTS task: `true` iff `run_tts_inline` clears `voice_playing`
before the wait ends. -/
def pass2 (ttsSettles : Bool) (cleared : SState) (sent : List String)
    (vp ttsAct : Bool) (events : List Event) : P2Res :=
  let text := textToSpeak events
  if text == "" then ⟨[], vp, ttsAct⟩
  else
    let echo : List Out :=
      if text ∈ sent then []
      else [.send "server.transcript.final"
              [("text", .vstr text), ("role", .vstr "assistant")]]
    if cleared.mode == "text" then ⟨echo, vp, ttsAct⟩
    else
      let vpAfter := if vp then (if ttsAct && ttsSettles then false else true)
                     else false
      let ttsAfter := if vp && ttsAct && ttsSettles then false else ttsAct
      if vpAfter == false then
        ⟨echo ++ [.send "server.voice.start" [], .spawnTTS text], true, true⟩
      else ⟨echo, vpAfter, ttsAfter⟩

/-- The idle thinking-state frame closing every completed drain. -/
def idleOut : Out :=
  .send "server.agent.thinking" [("state", .vstr "idle")]

/-- Result of one `process_outbox` call: frames sent, the session entry
afterwards, and the post-drain snapshot event objects. -/
structure DrainRes where
  outs : List Out
  sd : SessionData
  snapshot : List Event

/-- `process_outbox` (`main.py` 346-481).  The re-entrancy guard
`processing_outbox` makes a concurrent second call log and return with no
effect; an empty outbox returns before any frame is sent; otherwise the
outbox is snapshotted and cleared, pass 1 delivers every non-skip event in
order (handling hand-off and transcript bookkeeping), pass 2 merges and
speaks, and the drain closes with the idle thinking frame. -/
def process_outbox (reg : String → Option Plugin) (ttsSettles : Bool)
    (sd : SessionData) : DrainRes :=
  if sd.processing_outbox then ⟨[], sd, []⟩
  else
    let state := sd.state
    let outbox := state.outbox
    if outbox.isEmpty then ⟨[], sd, []⟩
    else
      let cleared := { state with outbox := [] }
      let r1 := pass1 reg cleared sd.agent_id cleared [] outbox
      let r2 := pass2 ttsSettles cleared r1.sent sd.voice_playing
                  sd.tts_active r1.evs
      ⟨r1.outs ++ r2.outs ++ [idleOut],
       { sd with
           agent_id := r1.agent
           state := r1.sess
           voice_playing := r2.vp
           tts_active := r2.tts },
       r1.evs⟩

/-! ## Voice-turn completion and the stale-session callback guards
(`main.py` 187-343, 573-588) -/

/-- `handle_text_chunk` (`main.py` 266-285): a final user chunk replaces
the stored transcript list; a partial one is formatted, stripped of a
trailing period and echoed as a rolling partial; an assistant chunk is
buffered and echoed as an assistant transcript. -/
def handle_text_chunk (fmt : String → String) (sd : SessionData)
    (text : String) (isUser isFinal : Bool) : SessionData × List Out :=
  if isUser then
    if isFinal then ({ sd with user_transcripts := [text] }, [])
    else
      let formatted := fmt text
      let formatted :=
        if sEndsWithChar formatted '.' then ⟨formatted.toList.dropLast⟩
        else formatted
      (sd, [.send "server.transcript.partial" [("text", .vstr formatted)]])
  else
    ({ sd with assist_buffer := sd.assist_buffer ++ [text] },
     [.send "server.transcript.final"
        [("text", .vstr text), ("role", .vstr "assistant")]])

/-- `handle_finished_for_sid` (`main.py` 289-343): flush the assistant
buffer into history, take the buffered final transcript; an empty
transcript skips the graph, otherwise format it, echo it, push the user
message, signal `extracting_intent` and invoke the engine — storing the
result and draining on success, only logging on failure.  The first
component records whether the engine was invoked at all. -/
def handle_finished_for_sid (fmt : String → String)
    (graphInvoke : SState → Except String SState)
    (reg : String → Option Plugin) (ttsSettles : Bool) (sd : SessionData) :
    Bool × List Out × SessionData :=
  if sd.handling_finished then (false, [], sd)
  else
    let st0 := sd.state
    let assistText := sTrim (sJoin sd.assist_buffer)
    let st1 :=
      if !(assistText == "") then
        { st0 with messages := st0.messages ++ [⟨"assistant", assistText, none⟩] }
      else st0
    let sd1 :=
      { sd with
          state := st1
          assist_buffer := if !(assistText == "") then [] else sd.assist_buffer
          user_transcripts := [] }
    let full := sTrim (sJoin sd.user_transcripts)
    if full == "" then (false, [], sd1)
    else
      let formatted := fmt full
      let st2 :=
        { st1 with
            transcript := formatted
            mode := "voice"
            messages := st1.messages ++ [⟨"user", formatted, none⟩] }
      let outs1 : List Out :=
        [.send "server.transcript.final"
           [("text", .vstr formatted), ("role", .vstr "user")],
         .send "server.agent.thinking" [("state", .vstr "extracting_intent")]]
      match graphInvoke st2 with
      | .error _ => (true, outs1, { sd1 with state := st2 })
      | .ok res =>
        let dr := process_outbox reg ttsSettles { sd1 with state := res }
        (true, outs1 ++ dr.outs, dr.sd)

/-- The `_on_text_chunk` closure of `start_sonic_stt` (`main.py` 218-221):
`h` is the identity of the `NovaSonicSession` captured when the closure was
built; a chunk whose session is no longer the session's current `sonic`
is ignored.  User chunks are forwarded with `is_user=True`. -/
def onTextChunkCb (fmt : String → String) (h : Nat)
    (sdOpt : Option SessionData) (text : String) (isFinal : Bool) :
    Option SessionData × List Out :=
  match sdOpt with
  | none => (none, [])
  | some sd =>
    if sd.sonic == some h then
      let r := handle_text_chunk fmt sd text true isFinal
      (some r.1, r.2)
    else (some sd, [])

/-- The `_handle_finished` closure of `start_sonic_stt` (`main.py`
223-226): same stale-session guard in front of `handle_finished_for_sid`. -/
def onFinishedCb (fmt : String → String)
    (graphInvoke : SState → Except String SState)
    (reg : String → Option Plugin) (ttsSettles : Bool) (h : Nat)
    (sdOpt : Option SessionData) : Bool × List Out × Option SessionData :=
  match sdOpt with
  | none => (false, [], none)
  | some sd =>
    if sd.sonic == some h then
      let r := handle_finished_for_sid fmt graphInvoke reg ttsSettles sd
      (r.1, r.2.1, some r.2.2)
    else (false, [], some sd)

/-- The `client.audio.interrupt` handler (`main.py` 573-588): cancel an
in-flight TTS task, end and clear an active Nova Sonic session so the next
turn gets a fresh one, drop `voice_playing` and tell the client voice
stopped. -/
def applyInterrupt (sd : SessionData) : SessionData × List Out :=
  let sd1 := if sd.tts_active then { sd with tts_active := false } else sd
  let sd2 :=
    if sd1.sonic.isSome && sd1.sonic_active then { sd1 with sonic := none }
    else sd1
  ({ sd2 with voice_playing := false }, [.send "server.voice.stop" []])

/-! ## The `client.text` path and connection setup (`main.py` 484-631) -/

/-- The `client.text` handler (`main.py` 590-631): record the utterance,
switch to text mode, kill any Nova Sonic session, append the user message
(with an optional data-URL-stripped image), echo the transcript, signal
`rendering_ui`, invoke the engine — storing the result and draining on
success, logging and signalling idle on failure. -/
def handle_client_text (graphInvoke : SState → Except String SState)
    (reg : String → Option Plugin) (ttsSettles : Bool) (sd : SessionData)
    (text : String) (image : Option String) : List Out × SessionData :=
  let st1 := { sd.state with transcript := text, mode := "text" }
  let stripped := image.map (fun s => if s == "" then s else stripDataUrl s)
  let msgImage : Option String :=
    match stripped with
    | some s => if s == "" then none else some s
    | none => none
  let st2 := { st1 with messages := st1.messages ++ [⟨"user", text, msgImage⟩] }
  let sd2 := { sd with sonic := none, state := st2 }
  let payloadImage : Val :=
    match stripped with
    | some s => .vstr s
    | none => .vnull
  let outs0 : List Out :=
    [.send "server.transcript.final"
       [("text", .vstr text), ("image", payloadImage)],
     .send "server.agent.thinking" [("state", .vstr "rendering_ui")]]
  match graphInvoke st2 with
  | .error _ =>
    (outs0 ++ [.send "server.agent.thinking" [("state", .vstr "idle")]], sd2)
  | .ok res =>
    let dr := process_outbox reg ttsSettles { sd2 with state := res }
    (outs0 ++ dr.outs, dr.sd)

/-- The fresh `sessions[session_id]` entry built on connect
(`main.py` 499-506); keys the handlers later `.get()` with falsy defaults
start out falsy. -/
def initialSessionData (agent : String) (plugin : Plugin) : SessionData :=
  { agent_id := agent
    state := plugin.initial
    voice_playing := false
    tts_active := false
    processing_outbox := false
    handling_finished := false
    sonic := none
    sonic_active := false
    user_transcripts := []
    assist_buffer := [] }

/-- Connection setup after a successful agent lookup (`main.py` 508-526):
send `server.ready`, run one initial engine invocation (its result state
`invokeRes` is a parameter, the engine being a black box), strip every
`server.voice.say` event from its outbox, store it and drain. -/
def initial_connect (reg : String → Option Plugin) (ttsSettles : Bool)
    (agent : String) (plugin : Plugin) (invokeRes : SState) :
    List Out × SessionData :=
  let sd := initialSessionData agent plugin
  let res :=
    { invokeRes with
        outbox := invokeRes.outbox.filter
          (fun e => !(e.type == "server.voice.say")) }
  let dr := process_outbox reg ttsSettles { sd with state := res }
  (.send "server.ready" [] :: dr.outs, dr.sd)

/-! ## Output classifiers used by the theorems -/

/-- A client-audible speech output: a spawned synthesis task or a
`server.voice.say` frame. -/
def isSpeechOut : Out → Bool
  | .spawnTTS _ => true
  | .send t _ => t == "server.voice.say"

/-- The texts of all spawned synthesis tasks in an output list. -/
def ttsSpawns (outs : List Out) : List String :=
  outs.filterMap (fun o => match o with | .spawnTTS t => some t | _ => none)

/-- Whether a frame is the idle thinking-state signal. -/
def isIdleOut : Out → Bool
  | .send t p =>
    t == "server.agent.thinking" &&
      (match dget p "state" with
       | some (.vstr s) => s == "idle"
       | _ => false)
  | .spawnTTS _ => false

/-- The frame pass 1 emits for a delivered (non-skip) event: its own type,
with the payload augmented by `showSupport` for a UI patch. -/
def deliverOut (cleared : SState) (e : Event) : Out :=
  .send e.type
    (if e.type == "server.a2ui.patch" then
       dset e.payload "showSupport" (showSupportFlag cleared)
     else e.payload)

/-- The drain's local `state` variable: session state with the outbox
already cleared. -/
def drainCleared (sd : SessionData) : SState :=
  { sd.state with outbox := [] }

/-- The pass-1 run a non-skipped drain of `sd` performs. -/
def drainPass1 (reg : String → Option Plugin) (sd : SessionData) : P1Res :=
  pass1 reg (drainCleared sd) sd.agent_id (drainCleared sd) []
    sd.state.outbox

/-- The pass-2 frames a non-skipped drain of `sd` emits between the pass-1
deliveries and the closing idle frame. -/
def drainTail (reg : String → Option Plugin) (o : Bool) (sd : SessionData) :
    List Out :=
  (pass2 o (drainCleared sd) (drainPass1 reg sd).sent sd.voice_playing
    sd.tts_active (drainPass1 reg sd).evs).outs

/-! ## Concrete instances for counterexamples and witnesses -/

/-- A speak-utterance outbox event carrying `t`. -/
def sayEvent (t : String) : Event :=
  ⟨"server.voice.say", [("text", .vstr t)]⟩

/-- A UI-patch outbox event with a non-empty payload. -/
def patchFooEvent : Event :=
  ⟨"server.a2ui.patch", [("foo", .vstr "bar")]⟩

/-- A hand-off outbox event targeting the lost-card plugin. -/
def handoffEvent : Event :=
  ⟨"server.internal.handoff", [("agent_id", .vstr "lost_card")]⟩

/-- A fresh mortgage session whose outbox is empty. -/
def sdEmptyOutbox : SessionData :=
  initialSessionData "mortgage" mortgagePlugin

/-- A voice-mode mortgage session holding one UI patch and one utterance. -/
def sdPatchSay : SessionData :=
  { sdEmptyOutbox with
      state := { mortgageInitialState with
                   mode := "voice"
                   outbox := [patchFooEvent, sayEvent "Hi there"] } }

/-- A mortgage session whose outbox holds one UI-patch event. -/
def sdPatchOnly : SessionData :=
  { sdEmptyOutbox with
      state := { mortgageInitialState with outbox := [patchFooEvent] } }

/-- A mortgage session with some history about to hand off to lost-card. -/
def sdHandoff : SessionData :=
  { sdEmptyOutbox with
      state := { mortgageInitialState with
                   messages := [⟨"user", "I lost my card", none⟩]
                   outbox := [handoffEvent] } }

/-- An assistant final-transcript outbox event carrying "Hi there". -/
def finalAssistantEvent : Event :=
  ⟨"server.transcript.final",
   [("text", .vstr "Hi there"), ("role", .vstr "assistant")]⟩

/-- A voice-mode session whose synthesis task is still playing, holding an
assistant transcript and a speak-utterance event with the same text. -/
def sdBusySay : SessionData :=
  { sdEmptyOutbox with
      voice_playing := true
      tts_active := true
      state := { mortgageInitialState with
                   mode := "voice"
                   outbox := [finalAssistantEvent, sayEvent "Hi there"] } }

/-- A session with an active Nova Sonic handle `1` and a buffered final
transcript, as after `client.audio.stop`. -/
def sdVoiceTurn : SessionData :=
  { sdEmptyOutbox with
      sonic := some 1
      sonic_active := true
      user_transcripts := ["hello"] }

/-- An engine whose invocation raises (`EngineInvocationError`). -/
def failGraph : SState → Except String SState :=
  fun _ => .error "EngineInvocationError"

/-- An engine whose invocation returns its input state unchanged. -/
def echoGraph : SState → Except String SState :=
  fun st => .ok st

/-! ## Structural lemmas about the drain -/

lemma pass1Event_of_skip (reg : String → Option Plugin) (cl : SState)
    (a : String) (s : SState) (t : List String) (e : Event)
    (h : isSkipType e.type = true) :
    pass1Event reg cl a s t e = ⟨[], a, s, t, e⟩ := by
  simp [pass1Event, h]

lemma pass1Event_outs (reg : String → Option Plugin) (cl : SState)
    (a : String) (s : SState) (t : List String) (e : Event)
    (h : isSkipType e.type = false) :
    (pass1Event reg cl a s t e).outs = [deliverOut cl e] := by
  simp [pass1Event, h, deliverOut]

lemma pass1Event_ev_type (reg : String → Option Plugin) (cl : SState)
    (a : String) (s : SState) (t : List String) (e : Event) :
    (pass1Event reg cl a s t e).ev.type = e.type := by
  by_cases h : isSkipType e.type = true
  · simp [pass1Event_of_skip reg cl a s t e h]
  · simp only [Bool.not_eq_true] at h
    simp only [pass1Event, h, Bool.false_eq_true, if_false]
    split <;> rfl

lemma pass1Event_agent_sess (reg : String → Option Plugin) (cl : SState)
    (a : String) (s : SState) (t : List String) (e : Event)
    (h : e.type ≠ "server.internal.handoff") :
    (pass1Event reg cl a s t e).agent = a ∧
      (pass1Event reg cl a s t e).sess = s := by
  by_cases hs : isSkipType e.type = true
  · simp [pass1Event_of_skip reg cl a s t e hs]
  · simp only [Bool.not_eq_true] at hs
    have hb : (e.type == "server.internal.handoff") = false :=
      beq_eq_false_iff_ne.mpr h
    simp [pass1Event, hs, hb]

lemma pass1Event_sess_cases (reg : String → Option Plugin) (cl : SState)
    (a : String) (s : SState) (t : List String) (e : Event) :
    (pass1Event reg cl a s t e).sess = s ∨
      ∃ a' p, reg a' = some p ∧
        (pass1Event reg cl a s t e).sess = handoffState p cl := by
  by_cases hs : isSkipType e.type = true
  · left; simp [pass1Event_of_skip reg cl a s t e hs]
  · simp only [Bool.not_eq_true] at hs
    simp only [pass1Event, hs, Bool.false_eq_true, if_false]
    by_cases hh : (e.type == "server.internal.handoff") = true
    · simp only [hh, if_true]
      cases hv : dget (if e.type == "server.a2ui.patch" then
          dset e.payload "showSupport" (showSupportFlag cl) else e.payload)
          "agent_id" with
      | none => left; rfl
      | some v =>
        by_cases ht : truthy v = true
        · cases v with
          | vstr a2 =>
            cases hr : reg a2 with
            | none => left; simp [hv, ht, hr]
            | some p =>
              right
              exact ⟨a2, p, hr, by simp [hv, ht, hr]⟩
          | vnull => left; simp [hv, ht]
          | vbool b => left; simp [hv, ht]
          | vint n => left; simp [hv, ht]
          | vlist l => left; simp [hv, ht]
          | vdict d => left; simp [hv, ht]
        · simp only [Bool.not_eq_true] at ht
          left; simp [hv, ht]
    · simp only [Bool.not_eq_true] at hh
      left; simp [hh]

lemma pass1_outs_eq (reg : String → Option Plugin) (cl : SState)
    (l : List Event) :
    ∀ a s t, (pass1 reg cl a s t l).outs =
      (l.filter (fun e => !(isSkipType e.type))).map (deliverOut cl) := by
  induction l with
  | nil => intro a s t; rfl
  | cons e rest ih =>
    intro a s t
    by_cases h : isSkipType e.type = true
    · simp [pass1, pass1Event_of_skip reg cl a s t e h, ih, h]
    · simp only [Bool.not_eq_true] at h
      simp [pass1, pass1Event_outs reg cl a s t e h, ih, h]

lemma pass1_agent_sess_of_no_handoff (reg : String → Option Plugin)
    (cl : SState) (l : List Event)
    (h : ∀ e ∈ l, e.type ≠ "server.internal.handoff") :
    ∀ a s t, (pass1 reg cl a s t l).agent = a ∧
      (pass1 reg cl a s t l).sess = s := by
  induction l with
  | nil => intro a s t; exact ⟨rfl, rfl⟩
  | cons e rest ih =>
    intro a s t
    have he := pass1Event_agent_sess reg cl a s t e (h e (by simp))
    have ihr := ih (fun e' he' => h e' (by simp [he']))
    simp only [pass1]
    rw [he.1, he.2]
    exact ihr _ _ _

lemma pass1_sess_outbox_empty (reg : String → Option Plugin) (cl : SState)
    (l : List Event)
    (hreg : ∀ a p, reg a = some p → p.initial.outbox = []) :
    ∀ a s t, s.outbox = [] → (pass1 reg cl a s t l).sess.outbox = [] := by
  induction l with
  | nil => intro a s t hs; exact hs
  | cons e rest ih =>
    intro a s t hs
    simp only [pass1]
    apply ih
    rcases pass1Event_sess_cases reg cl a s t e with hc | ⟨a', p, hp, hc⟩
    · rw [hc]; exact hs
    · rw [hc]
      exact hreg a' p hp

lemma mergeVoice_pass1_evs (reg : String → Option Plugin) (cl : SState)
    (l : List Event) :
    ∀ a s t parts, mergeVoice parts (pass1 reg cl a s t l).evs =
      mergeVoice parts l := by
  induction l with
  | nil => intro a s t parts; rfl
  | cons e rest ih =>
    intro a s t parts
    simp only [pass1, mergeVoice]
    by_cases h : e.type = "server.voice.say"
    · have hsk : isSkipType e.type = true := by simp [isSkipType, h]
      rw [pass1Event_of_skip reg cl a s t e hsk]
      exact ih _ _ _ _
    · have h1 : ((pass1Event reg cl a s t e).ev.type == "server.voice.say")
          = false := by
        rw [pass1Event_ev_type]
        exact beq_eq_false_iff_ne.mpr h
      have h2 : (e.type == "server.voice.say") = false :=
        beq_eq_false_iff_ne.mpr h
      rw [h1, h2]
      simp only [Bool.false_eq_true, if_false]
      exact ih _ _ _ _

lemma mergeVoice_of_no_voice (l : List Event)
    (h : ∀ e ∈ l, (e.type == "server.voice.say") = false) :
    ∀ parts, mergeVoice parts l = parts := by
  induction l with
  | nil => intro parts; rfl
  | cons e rest ih =>
    intro parts
    simp only [mergeVoice, h e (by simp), Bool.false_eq_true, if_false]
    exact ih (fun e' he' => h e' (by simp [he'])) parts

lemma pass1_append (reg : String → Option Plugin) (cl : SState)
    (l1 l2 : List Event) :
    ∀ a s t, pass1 reg cl a s t (l1 ++ l2) =
      { outs := (pass1 reg cl a s t l1).outs ++
          (pass1 reg cl (pass1 reg cl a s t l1).agent
            (pass1 reg cl a s t l1).sess (pass1 reg cl a s t l1).sent
            l2).outs
        agent := (pass1 reg cl (pass1 reg cl a s t l1).agent
          (pass1 reg cl a s t l1).sess (pass1 reg cl a s t l1).sent
          l2).agent
        sess := (pass1 reg cl (pass1 reg cl a s t l1).agent
          (pass1 reg cl a s t l1).sess (pass1 reg cl a s t l1).sent
          l2).sess
        sent := (pass1 reg cl (pass1 reg cl a s t l1).agent
          (pass1 reg cl a s t l1).sess (pass1 reg cl a s t l1).sent
          l2).sent
        evs := (pass1 reg cl a s t l1).evs ++
          (pass1 reg cl (pass1 reg cl a s t l1).agent
            (pass1 reg cl a s t l1).sess (pass1 reg cl a s t l1).sent
            l2).evs } := by
  induction l1 with
  | nil => intro a s t; rfl
  | cons e rest ih =>
    intro a s t
    simp only [List.cons_append, pass1, List.append_eq]
    rw [ih]
    simp [List.append_assoc]

lemma pass1Event_handoff (reg : String → Option Plugin) (cl : SState)
    (a : String) (s : SState) (t : List String) (e : Event) (aid : String)
    (p : Plugin) (h3 : e.type = "server.internal.handoff")
    (ha : dget e.payload "agent_id" = some (.vstr aid)) (hne : aid ≠ "")
    (hr : reg aid = some p) :
    (pass1Event reg cl a s t e).agent = aid ∧
      (pass1Event reg cl a s t e).sess = handoffState p cl := by
  have htr : truthy (.vstr aid) = true := by
    simp [truthy, hne]
  simp [pass1Event, h3, ha, htr, hr,
    show isSkipType "server.internal.handoff" = false from rfl]

lemma reg0_initial_outbox_empty :
    ∀ a p, reg0 a = some p → p.initial.outbox = [] := by
  intro a p h
  unfold reg0 at h
  split at h
  · cases h; rfl
  · split at h
    · cases h; rfl
    · exact Option.noConfusion h

lemma process_outbox_no_voice_no_speech (reg : String → Option Plugin)
    (o : Bool) (sd : SessionData)
    (h : ∀ e ∈ sd.state.outbox, (e.type == "server.voice.say") = false) :
    (process_outbox reg o sd).outs.filter isSpeechOut = [] ∧
      ttsSpawns (process_outbox reg o sd).outs = [] := by
  by_cases hp : sd.processing_outbox
  · simp [process_outbox, hp, ttsSpawns]
  · simp only [Bool.not_eq_true] at hp
    by_cases he : sd.state.outbox.isEmpty
    · simp [process_outbox, hp, he, ttsSpawns]
    · simp only [Bool.not_eq_true] at he
      have houts := pass1_outs_eq reg { sd.state with outbox := [] }
        sd.state.outbox sd.agent_id { sd.state with outbox := [] } []
      have hmerge : mergeVoice []
          (pass1 reg { sd.state with outbox := [] } sd.agent_id
            { sd.state with outbox := [] } [] sd.state.outbox).evs = [] := by
        rw [mergeVoice_pass1_evs]
        exact mergeVoice_of_no_voice _ h []
      have htext : textToSpeak
          (pass1 reg { sd.state with outbox := [] } sd.agent_id
            { sd.state with outbox := [] } [] sd.state.outbox).evs = "" := by
        unfold textToSpeak
        rw [hmerge]
        rfl
      have hp2 : (pass2 o { sd.state with outbox := [] }
          (pass1 reg { sd.state with outbox := [] } sd.agent_id
            { sd.state with outbox := [] } [] sd.state.outbox).sent
          sd.voice_playing sd.tts_active
          (pass1 reg { sd.state with outbox := [] } sd.agent_id
            { sd.state with outbox := [] } [] sd.state.outbox).evs).outs
          = [] := by
        simp [pass2, htext]
      have hdeliv : ∀ e ∈ sd.state.outbox.filter
          (fun e => !(isSkipType e.type)),
          isSpeechOut (deliverOut { sd.state with outbox := [] } e) = false := by
        intro e hmem
        have hm := List.mem_of_mem_filter hmem
        simp [deliverOut, isSpeechOut, h e hm]
      constructor
      · simp only [process_outbox, hp, Bool.false_eq_true, if_false, he,
          houts, hp2]
        rw [List.filter_append, List.filter_append]
        rw [List.filter_map]
        have hnil : List.filter (isSpeechOut ∘ deliverOut
            { sd.state with outbox := [] })
            (sd.state.outbox.filter (fun e => !(isSkipType e.type))) = [] := by
          rw [List.filter_eq_nil_iff]
          intro e hmem
          simp [hdeliv e hmem]
        simp [hnil, isSpeechOut, idleOut]
      · simp only [process_outbox, hp, Bool.false_eq_true, if_false, he,
          houts, hp2]
        unfold ttsSpawns
        rw [List.filterMap_append, List.filterMap_append]
        rw [List.filterMap_map]
        have hnil : List.filterMap ((fun out => match out with
            | Out.spawnTTS t => some t
            | _ => none) ∘ deliverOut { sd.state with outbox := [] })
            (sd.state.outbox.filter (fun e => !(isSkipType e.type))) = [] := by
          rw [List.filterMap_eq_nil_iff]
          intro e hmem
          simp [deliverOut]
        simp [hnil, idleOut]

/-! ## The claims -/

/-- C1: for every session, each outbox event is delivered at most once —
a re-entrant drain attempt (the `processing_outbox` guard set) returns
immediately delivering nothing and leaving the session untouched, and
because a completed drain has snapshotted and cleared the outbox, an
immediately following drain of the same session delivers nothing either
(for any registry whose plugins start with an empty outbox, as all of this
repository's do). -/
theorem claim_drain_at_most_once (reg : String → Option Plugin)
    (o o' : Bool) (sd : SessionData)
    (hreg : ∀ a p, reg a = some p → p.initial.outbox = []) :
    (sd.processing_outbox = true → process_outbox reg o sd = ⟨[], sd, []⟩) ∧
    (process_outbox reg o' (process_outbox reg o sd).sd).outs = [] := by
  constructor
  · intro h
    simp [process_outbox, h]
  · by_cases h : sd.processing_outbox
    · simp [process_outbox, h]
    · simp only [Bool.not_eq_true] at h
      by_cases he : sd.state.outbox.isEmpty
      · simp [process_outbox, h, he]
      · simp only [Bool.not_eq_true] at he
        have hout : (pass1 reg { sd.state with outbox := [] } sd.agent_id
            { sd.state with outbox := [] } [] sd.state.outbox).sess.outbox
            = [] :=
          pass1_sess_outbox_empty reg _ _ hreg _ _ _ rfl
        simp [process_outbox, h, he, hout]

/-- C1 witness: a concrete double drain of a session holding a UI patch
and an utterance delivers nothing the second time, and a drain attempted
while the guard is set returns unchanged. -/
theorem claim_drain_at_most_once_witness :
    (process_outbox reg0 false (process_outbox reg0 false sdPatchSay).sd).outs
      = [] ∧
    ({ sdPatchSay with processing_outbox := true }.processing_outbox = true →
      process_outbox reg0 false { sdPatchSay with processing_outbox := true }
        = ⟨[], { sdPatchSay with processing_outbox := true }, []⟩) :=
  ⟨(claim_drain_at_most_once reg0 false false sdPatchSay
      reg0_initial_outbox_empty).2,
   (claim_drain_at_most_once reg0 false false
      { sdPatchSay with processing_outbox := true }
      reg0_initial_outbox_empty).1⟩

/-- C8 counterexample: a drain of a live session whose outbox is empty
returns before sending anything — in particular it does not end with the
idle thinking-state frame, contradicting the claim for the zero-event
case. -/
theorem claim_drain_always_idle_counterexample :
    (process_outbox reg0 false sdEmptyOutbox).outs.getLast? ≠ some idleOut := by
  intro h
  rw [show (process_outbox reg0 false sdEmptyOutbox).outs = [] from rfl] at h
  simp at h

/-- C8 amended: every drain of a non-empty outbox that is not skipped by
the re-entrancy guard ends by sending the idle thinking-state frame; a
drain finding an empty outbox (or finding the guard set) returns without
sending anything. -/
theorem claim_nonempty_drain_ends_idle (reg : String → Option Plugin)
    (o : Bool) (sd : SessionData) (h1 : sd.processing_outbox = false)
    (h2 : sd.state.outbox ≠ []) :
    (process_outbox reg o sd).outs.getLast? = some idleOut := by
  have he : sd.state.outbox.isEmpty = false := by
    cases hl : sd.state.outbox with
    | nil => exact absurd hl h2
    | cons a as => rfl
  simp [process_outbox, h1, he, List.getLast?_concat]

/-- C8 amended, witness at a two-event outbox. -/
theorem claim_nonempty_drain_ends_idle_witness :
    sdPatchSay.processing_outbox = false ∧ sdPatchSay.state.outbox ≠ [] ∧
      (process_outbox reg0 false sdPatchSay).outs.getLast? = some idleOut :=
  ⟨rfl, by simp [sdPatchSay, sdEmptyOutbox, initialSessionData],
   claim_nonempty_drain_ends_idle reg0 false sdPatchSay rfl
     (by simp [sdPatchSay, sdEmptyOutbox, initialSessionData])⟩

/-- C9 counterexample: delivering a UI-patch event whose stored payload is
non-empty mutates the stored event — after the drain, the snapshot no
longer holds the original event, contradicting "never mutate the stored
event". -/
theorem claim_ui_patch_unmutated_counterexample :
    (process_outbox reg0 false sdPatchOnly).snapshot ≠ [patchFooEvent] := by
  intro h
  have h1 : (process_outbox reg0 false sdPatchOnly).snapshot =
      [⟨"server.a2ui.patch",
        [("foo", .vstr "bar"), ("showSupport", .vbool false)]⟩] := rfl
  rw [h1] at h
  rw [show patchFooEvent =
    (⟨"server.a2ui.patch", [("foo", .vstr "bar")]⟩ : Event) from rfl] at h
  injection h with h2 h3
  injection h2 with ht hp
  injection hp with hx hrest
  exact List.noConfusion hrest

/-- C9 amended: pass 1 augments the payload it sends for a UI-patch event
with the derived `showSupport` flag just before sending; because the sent
dict aliases the stored payload whenever that payload is non-empty, the
stored snapshot event is mutated in place in exactly that case (a fresh
dict is used only for an empty payload). -/
theorem claim_ui_patch_augment_in_place (reg : String → Option Plugin)
    (cl : SState) (a : String) (s : SState) (t : List String) (e : Event)
    (h3 : e.type = "server.a2ui.patch") :
    (pass1Event reg cl a s t e).outs =
      [.send e.type (dset e.payload "showSupport" (showSupportFlag cl))] ∧
    (pass1Event reg cl a s t e).ev =
      (if e.payload.isEmpty then e
       else { e with
                payload := dset e.payload "showSupport" (showSupportFlag cl) })
    := by
  by_cases hp : e.payload.isEmpty
  · simp [pass1Event, h3, hp,
      show isSkipType "server.a2ui.patch" = false from rfl]
  · simp only [Bool.not_eq_true] at hp
    simp [pass1Event, h3, hp,
      show isSkipType "server.a2ui.patch" = false from rfl]

/-- C9 amended, witness at a UI patch with a one-entry payload. -/
theorem claim_ui_patch_augment_in_place_witness :
    (pass1Event reg0 mortgageInitialState "mortgage" mortgageInitialState []
      patchFooEvent).outs =
      [.send patchFooEvent.type (dset patchFooEvent.payload "showSupport"
        (showSupportFlag mortgageInitialState))] ∧
    (pass1Event reg0 mortgageInitialState "mortgage" mortgageInitialState []
      patchFooEvent).ev =
      (if patchFooEvent.payload.isEmpty then patchFooEvent
       else { patchFooEvent with
                payload := dset patchFooEvent.payload "showSupport"
                  (showSupportFlag mortgageInitialState) }) :=
  claim_ui_patch_augment_in_place reg0 mortgageInitialState "mortgage"
    mortgageInitialState [] patchFooEvent rfl

/-- C3: the pass-2 merge skips a fragment that equals or is a substring of
the merge so far, replaces the merge so far with a later fragment that
contains it, and on the fragment list `["Hello", "Hello there",
"Hello there"]` yields exactly `"Hello there"`. -/
theorem claim_voice_merge_semantics :
    (∀ parts t, parts ≠ [] →
       (t == sJoinSpace parts || isSubstr t (sJoinSpace parts)) = true →
       mergeStep parts t = parts) ∧
    (∀ parts t, parts ≠ [] → t ≠ "" →
       (t == sJoinSpace parts || isSubstr t (sJoinSpace parts)) = false →
       isSubstr (sJoinSpace parts) t = true →
       mergeStep parts t = [t]) ∧
    textToSpeak [sayEvent "Hello", sayEvent "Hello there",
      sayEvent "Hello there"] = "Hello there" := by
  refine ⟨?_, ?_, rfl⟩
  · intro parts t hp hc
    by_cases ht : t == ""
    · simp [mergeStep, ht]
    · have hpe : parts.isEmpty = false := by
        cases parts with
        | nil => exact absurd rfl hp
        | cons a as => rfl
      simp [mergeStep, ht, hpe, hc]
  · intro parts t hp ht hc hsup
    have hpe : parts.isEmpty = false := by
      cases parts with
      | nil => exact absurd rfl hp
      | cons a as => rfl
    have htb : (t == "") = false := beq_eq_false_iff_ne.mpr ht
    simp [mergeStep, htb, hpe, hc, hsup]

/-- C3 witness: a duplicate fragment is skipped and a superset fragment
replaces the merge so far, at concrete fragments. -/
theorem claim_voice_merge_semantics_witness :
    mergeStep ["Hello"] "Hello" = ["Hello"] ∧
    mergeStep ["Hello"] "Hello there" = ["Hello there"] :=
  ⟨claim_voice_merge_semantics.1 ["Hello"] "Hello" (by simp) rfl,
   claim_voice_merge_semantics.2.1 ["Hello"] "Hello there" (by simp)
     (by decide) rfl rfl⟩

/-- C7: the invocation adapter calls the persistence hook exactly once
after a successful engine call and not at all when the engine raises; with
the lost-card hook (the repository's only side-effecting one), a failing
write inside the hook is caught in `save_domain` and never surfaces — the
adapter returns the engine's result unchanged for every write outcome. -/
theorem claim_post_invoke_once_errors_swallowed
    (graph : SState → Except String SState) (st : SState)
    (writeFails : Bool) :
    (∀ e, graph st = .error e →
       invoke_graph graph (lostCardPostInvoke writeFails) st = (.error e, 0)) ∧
    (∀ res, graph st = .ok res →
       invoke_graph graph (lostCardPostInvoke writeFails) st = (.ok res, 1))
    := by
  have hpost : ∀ s, lostCardPostInvoke writeFails s = .ok () := by
    intro s
    by_cases hd : (domGet s.domain "lost_card").isEmpty <;>
      by_cases hw : writeFails <;>
        simp [lostCardPostInvoke, save_domain, save_domain_body, hd, hw]
  constructor
  · intro e he
    simp [invoke_graph, he]
  · intro res hres
    simp [invoke_graph, hres, hpost]

/-- C7 witness: with a failing file write, a successful engine call still
returns its result with the hook run once; a raising engine returns its
error with the hook never run. -/
theorem claim_post_invoke_once_errors_swallowed_witness :
    invoke_graph echoGraph (lostCardPostInvoke true) (lostCardInitialState [])
      = (.ok (lostCardInitialState []), 1) ∧
    invoke_graph failGraph (lostCardPostInvoke true) (lostCardInitialState [])
      = (.error "EngineInvocationError", 0) :=
  ⟨(claim_post_invoke_once_errors_swallowed echoGraph
      (lostCardInitialState []) true).2 _ rfl,
   (claim_post_invoke_once_errors_swallowed failGraph
      (lostCardInitialState []) true).1 _ rfl⟩

/-- C5: a final transcript or text chunk arriving from a transcription
session that is no longer the session's current one is dropped by the
callbacks' identity guard — nothing is sent, nothing changes and no engine
invocation happens — and after `client.audio.interrupt` on an active
session the handle is cleared, so the superseded session's on-finished
callback can never trigger an engine invocation. -/
theorem claim_stale_transcript_discarded :
    (∀ fmt graphInvoke reg o (h : Nat) sd, sd.sonic ≠ some h →
       onFinishedCb fmt graphInvoke reg o h (some sd) = (false, [], some sd)) ∧
    (∀ fmt (h : Nat) sd text fin, sd.sonic ≠ some h →
       onTextChunkCb fmt h (some sd) text fin = (some sd, [])) ∧
    (∀ sd, sd.sonic_active = true →
       (applyInterrupt sd).1.sonic = none ∧
       ∀ fmt graphInvoke reg o (h : Nat),
         onFinishedCb fmt graphInvoke reg o h (some (applyInterrupt sd).1) =
           (false, [], some (applyInterrupt sd).1)) := by
  have hguard : ∀ (sd : SessionData) (h : Nat), sd.sonic ≠ some h →
      (sd.sonic == some h) = false := by
    intro sd h hne
    exact beq_eq_false_iff_ne.mpr hne
  refine ⟨?_, ?_, ?_⟩
  · intro fmt gi reg o h sd hne
    simp [onFinishedCb, hguard sd h hne]
  · intro fmt h sd text fin hne
    simp [onTextChunkCb, hguard sd h hne]
  · intro sd hact
    have hs : (applyInterrupt sd).1.sonic = none := by
      cases hso : sd.sonic with
      | none =>
        by_cases ht : sd.tts_active <;> simp [applyInterrupt, ht, hso, hact]
      | some k =>
        by_cases ht : sd.tts_active <;> simp [applyInterrupt, ht, hso, hact]
    refine ⟨hs, ?_⟩
    intro fmt gi reg o h
    have hne : (applyInterrupt sd).1.sonic ≠ some h := by
      rw [hs]
      exact fun hh => Option.noConfusion hh
    simp [onFinishedCb, hguard _ _ hne]

/-- C5 witness: concrete stale-handle callbacks drop their input, and the
interrupt handler clears an active handle so a later on-finished callback
for it does nothing. -/
theorem claim_stale_transcript_discarded_witness :
    onFinishedCb (fun s => s) echoGraph reg0 false 2 (some sdVoiceTurn) =
      (false, [], some sdVoiceTurn) ∧
    onTextChunkCb (fun s => s) 2 (some sdVoiceTurn) "hi" true =
      (some sdVoiceTurn, []) ∧
    (applyInterrupt sdVoiceTurn).1.sonic = none ∧
    onFinishedCb (fun s => s) echoGraph reg0 false 1
        (some (applyInterrupt sdVoiceTurn).1) =
      (false, [], some (applyInterrupt sdVoiceTurn).1) :=
  ⟨claim_stale_transcript_discarded.1 (fun s => s) echoGraph reg0 false 2
     sdVoiceTurn (by decide),
   claim_stale_transcript_discarded.2.1 (fun s => s) 2 sdVoiceTurn "hi" true
     (by decide),
   (claim_stale_transcript_discarded.2.2 sdVoiceTurn rfl).1,
   (claim_stale_transcript_discarded.2.2 sdVoiceTurn rfl).2 (fun s => s)
     echoGraph reg0 false 1⟩

/-- C6, evaluated at the failing input: when the engine raises on a voice
turn (buffered transcript "hello"), the handler logs and leaves the
pre-invocation state stored, but sends no idle thinking-state frame — the
turn ends with the `extracting_intent` signal still standing — whereas the
`client.text` path under the same engine failure does end with the idle
frame and also preserves the pre-invocation state.  This contradicts the
claim's "idle signal on both paths". -/
theorem claim_engine_failure_idle_divergence :
    (handle_finished_for_sid (fun s => s) failGraph reg0 false
      sdVoiceTurn).1 = true ∧
    (handle_finished_for_sid (fun s => s) failGraph reg0 false
      sdVoiceTurn).2.1.filter isIdleOut = [] ∧
    (handle_finished_for_sid (fun s => s) failGraph reg0 false
      sdVoiceTurn).2.1.getLast? =
      some (.send "server.agent.thinking"
        [("state", .vstr "extracting_intent")]) ∧
    (handle_finished_for_sid (fun s => s) failGraph reg0 false
      sdVoiceTurn).2.2.state.transcript = "hello" ∧
    (handle_finished_for_sid (fun s => s) failGraph reg0 false
      sdVoiceTurn).2.2.state.mode = "voice" ∧
    (handle_finished_for_sid (fun s => s) failGraph reg0 false
      sdVoiceTurn).2.2.state.messages = [⟨"user", "hello", none⟩] ∧
    (handle_client_text failGraph reg0 false sdEmptyOutbox "hello"
      none).1.getLast? = some idleOut ∧
    (handle_client_text failGraph reg0 false sdEmptyOutbox "hello"
      none).2.state.transcript = "hello" ∧
    (handle_client_text failGraph reg0 false sdEmptyOutbox "hello"
      none).2.state.messages = [⟨"user", "hello", none⟩] :=
  ⟨rfl, rfl, rfl, rfl, rfl, rfl, rfl, rfl, rfl⟩

/-- C10: connection setup sends `ready`, runs one initial engine
invocation, strips every `server.voice.say` event from its outbox and
drains — so whatever state the engine returns, the setup outputs contain
no speech utterance and spawn no synthesis task. -/
theorem claim_initial_connect_no_speech (reg : String → Option Plugin)
    (o : Bool) (agent : String) (plugin : Plugin) (res : SState) :
    (initial_connect reg o agent plugin res).1.filter isSpeechOut = [] ∧
    ttsSpawns (initial_connect reg o agent plugin res).1 = [] := by
  have h : ∀ e ∈ res.outbox.filter (fun e => !(e.type == "server.voice.say")),
      (e.type == "server.voice.say") = false := by
    intro e he
    have h2 := List.of_mem_filter he
    simpa using h2
  have main := process_outbox_no_voice_no_speech reg o
    { initialSessionData agent plugin with
        state :=
          { res with
              outbox := res.outbox.filter
                (fun e => !(e.type == "server.voice.say")) } } h
  constructor
  · show (Out.send "server.ready" [] ::
      (process_outbox reg o _).outs).filter isSpeechOut = []
    rw [List.filter_cons_of_neg]
    · exact main.1
    · simp [isSpeechOut]
  · show ttsSpawns (Out.send "server.ready" [] ::
      (process_outbox reg o _).outs) = []
    unfold ttsSpawns
    rw [List.filterMap_cons_none]
    · exact main.2
    · rfl

/-- C4: processing the (last) hand-off event of a drain whose target
engine is registered leaves the session on exactly the target's initial
state with only `mode`, `device`, `messages` and `meta` copied forward
from the pre-hand-off state — in particular the message history is
preserved and the domain payload is the new engine's fresh default. -/
theorem claim_handoff_envelope (reg : String → Option Plugin) (o : Bool)
    (sd : SessionData) (pre post : List Event) (e : Event) (aid : String)
    (p : Plugin)
    (h1 : sd.processing_outbox = false)
    (h2 : sd.state.outbox = pre ++ e :: post)
    (h3 : e.type = "server.internal.handoff")
    (h4 : dget e.payload "agent_id" = some (.vstr aid))
    (h5 : aid ≠ "")
    (h6 : reg aid = some p)
    (h7 : ∀ e' ∈ post, e'.type ≠ "server.internal.handoff") :
    (process_outbox reg o sd).sd.state =
      handoffState p { sd.state with outbox := [] } ∧
    (process_outbox reg o sd).sd.agent_id = aid ∧
    (process_outbox reg o sd).sd.state.messages = sd.state.messages ∧
    (process_outbox reg o sd).sd.state.domain = p.initial.domain ∧
    (process_outbox reg o sd).sd.state.mode = sd.state.mode ∧
    (process_outbox reg o sd).sd.state.device = sd.state.device ∧
    (process_outbox reg o sd).sd.state.meta = sd.state.meta := by
  have he : sd.state.outbox.isEmpty = false := by
    rw [h2]
    cases pre <;> rfl
  have hkey : ∀ (a : String) (s : SState) (t : List String),
      (pass1 reg { sd.state with outbox := [] } a s t
        (pre ++ e :: post)).agent = aid ∧
      (pass1 reg { sd.state with outbox := [] } a s t
        (pre ++ e :: post)).sess =
        handoffState p { sd.state with outbox := [] } := by
    intro a s t
    rw [pass1_append reg { sd.state with outbox := [] } pre (e :: post) a s t]
    dsimp only
    simp only [pass1]
    obtain ⟨hA, hS⟩ := pass1Event_handoff reg { sd.state with outbox := [] }
      (pass1 reg { sd.state with outbox := [] } a s t pre).agent
      (pass1 reg { sd.state with outbox := [] } a s t pre).sess
      (pass1 reg { sd.state with outbox := [] } a s t pre).sent
      e aid p h3 h4 h5 h6
    rw [hA, hS]
    dsimp only
    exact pass1_agent_sess_of_no_handoff reg
      { sd.state with outbox := [] } post h7 aid
      (handoffState p { sd.state with outbox := [] }) _
  have hrw1 : (process_outbox reg o sd).sd.state =
      (pass1 reg { sd.state with outbox := [] } sd.agent_id
        { sd.state with outbox := [] } [] sd.state.outbox).sess := by
    simp [process_outbox, h1, he]
  have hrw2 : (process_outbox reg o sd).sd.agent_id =
      (pass1 reg { sd.state with outbox := [] } sd.agent_id
        { sd.state with outbox := [] } [] sd.state.outbox).agent := by
    simp [process_outbox, h1, he]
  have hstate : (process_outbox reg o sd).sd.state =
      handoffState p { sd.state with outbox := [] } := by
    rw [hrw1, h2]
    exact (hkey _ _ _).2
  refine ⟨hstate, ?_, ?_, ?_, ?_, ?_, ?_⟩
  · rw [hrw2, h2]
    exact (hkey _ _ _).1
  · rw [hstate]; rfl
  · rw [hstate]; rfl
  · rw [hstate]; rfl
  · rw [hstate]; rfl
  · rw [hstate]; rfl

/-- C4 witness: a concrete mortgage session with one user message hands
off to the lost-card plugin; the messages survive, the domain payload is
the lost-card default. -/
theorem claim_handoff_envelope_witness :
    (process_outbox reg0 false sdHandoff).sd.state =
      handoffState (lostCardPlugin []) { sdHandoff.state with outbox := [] } ∧
    (process_outbox reg0 false sdHandoff).sd.agent_id = "lost_card" ∧
    (process_outbox reg0 false sdHandoff).sd.state.messages =
      sdHandoff.state.messages ∧
    (process_outbox reg0 false sdHandoff).sd.state.domain =
      (lostCardPlugin []).initial.domain ∧
    (process_outbox reg0 false sdHandoff).sd.state.mode =
      sdHandoff.state.mode ∧
    (process_outbox reg0 false sdHandoff).sd.state.device =
      sdHandoff.state.device ∧
    (process_outbox reg0 false sdHandoff).sd.state.meta =
      sdHandoff.state.meta :=
  claim_handoff_envelope reg0 false sdHandoff [] [] handoffEvent
    "lost_card" (lostCardPlugin []) rfl rfl rfl rfl (by decide) rfl
    (by intro e' he'; exact absurd he' (List.not_mem_nil e'))

/-- C2 counterexample: a drain with one speak-utterance event (M = 1)
whose merged text "Hi there" remains non-empty after merging, but whose
session still has a synthesis task playing that does not settle within the
3-second grace wait, and whose merged text pass 1 already delivered as an
assistant transcript: pass 2 emits nothing at all — no merged utterance
frame, no speech frame and no synthesis task — refuting "exactly one
merged speech utterance if M > 0 and text remains after merging". -/
theorem claim_drain_ordering_counterexample :
    0 < (sdBusySay.state.outbox.filter
      (fun e => e.type == "server.voice.say")).length ∧
    textToSpeak sdBusySay.state.outbox ≠ "" ∧
    drainTail reg0 false sdBusySay = [] ∧
    ttsSpawns (process_outbox reg0 false sdBusySay).outs = [] ∧
    (process_outbox reg0 false sdBusySay).outs.filter isSpeechOut = [] :=
  ⟨by decide, by decide, rfl, rfl, rfl⟩

/-- C2 amended: a non-skipped drain of a non-empty outbox free of
engine-internal events delivers every non-speech event, in outbox order
and augmented as pass 1 does, strictly before the pass-2 speech frames,
and closes with the idle frame; with no speak-utterance event, pass 2
emits nothing and no synthesis task is spawned; with speak-utterance
events whose merge is non-empty — provided no synthesis is already
playing and the session is not in text-only mode — pass 2 emits the
single merged utterance (echoed as an assistant transcript unless pass 1
already sent that text) and spawns exactly one synthesis task, carrying
the merged text. -/
theorem claim_drain_ordering_single_utterance (reg : String → Option Plugin)
    (o : Bool) (sd : SessionData)
    (h1 : sd.processing_outbox = false)
    (h2 : sd.state.outbox ≠ [])
    (h3 : ∀ e ∈ sd.state.outbox, e.type ≠ "server.audit.event" ∧
       e.type ≠ "server.internal.chain_action") :
    (process_outbox reg o sd).outs =
      (sd.state.outbox.filter (fun e => !(e.type == "server.voice.say"))).map
        (deliverOut (drainCleared sd)) ++ drainTail reg o sd ++ [idleOut] ∧
    ((sd.state.outbox.filter
        (fun e => e.type == "server.voice.say")).length = 0 →
       drainTail reg o sd = [] ∧
       ttsSpawns (process_outbox reg o sd).outs = []) ∧
    (0 < (sd.state.outbox.filter
        (fun e => e.type == "server.voice.say")).length →
       textToSpeak sd.state.outbox ≠ "" →
       sd.voice_playing = false → sd.state.mode ≠ "text" →
       drainTail reg o sd =
         (if textToSpeak sd.state.outbox ∈ (drainPass1 reg sd).sent then []
          else [.send "server.transcript.final"
            [("text", .vstr (textToSpeak sd.state.outbox)),
             ("role", .vstr "assistant")]]) ++
         [.send "server.voice.start" [],
          .spawnTTS (textToSpeak sd.state.outbox)] ∧
       ttsSpawns (process_outbox reg o sd).outs =
         [textToSpeak sd.state.outbox]) := by
  have he : sd.state.outbox.isEmpty = false := by
    cases hl : sd.state.outbox with
    | nil => exact absurd hl h2
    | cons a as => rfl
  have hfeq : sd.state.outbox.filter (fun e => !(isSkipType e.type)) =
      sd.state.outbox.filter (fun e => !(e.type == "server.voice.say")) := by
    apply List.filter_congr
    intro e hmem
    obtain ⟨ha, hc⟩ := h3 e hmem
    simp [isSkipType, beq_eq_false_iff_ne.mpr ha,
      beq_eq_false_iff_ne.mpr hc]
  have houtsmain : (process_outbox reg o sd).outs =
      (drainPass1 reg sd).outs ++ drainTail reg o sd ++ [idleOut] := by
    unfold drainTail drainPass1 drainCleared
    simp [process_outbox, h1, he]
  have hp1outs : (drainPass1 reg sd).outs =
      (sd.state.outbox.filter
        (fun e => !(e.type == "server.voice.say"))).map
        (deliverOut (drainCleared sd)) := by
    unfold drainPass1
    rw [pass1_outs_eq, hfeq]
  have hp1nil : ttsSpawns (drainPass1 reg sd).outs = [] := by
    rw [hp1outs]
    unfold ttsSpawns
    rw [List.filterMap_map]
    rw [List.filterMap_eq_nil_iff]
    intro e hmem
    simp [deliverOut]
  have htextevs : textToSpeak (drainPass1 reg sd).evs =
      textToSpeak sd.state.outbox := by
    unfold drainPass1 textToSpeak
    rw [mergeVoice_pass1_evs]
  refine ⟨by rw [houtsmain, hp1outs], ?_, ?_⟩
  · intro hM0
    have hnovoice : ∀ e ∈ sd.state.outbox,
        (e.type == "server.voice.say") = false := by
      intro e hmem
      by_contra hb
      simp only [Bool.not_eq_false] at hb
      have hmem2 : e ∈ sd.state.outbox.filter
          (fun e => e.type == "server.voice.say") :=
        List.mem_filter.mpr ⟨hmem, hb⟩
      rw [List.length_eq_zero] at hM0
      rw [hM0] at hmem2
      exact absurd hmem2 (List.not_mem_nil e)
    have htext0 : textToSpeak (drainPass1 reg sd).evs = "" := by
      unfold drainPass1 textToSpeak
      rw [mergeVoice_pass1_evs]
      rw [mergeVoice_of_no_voice _ hnovoice []]
      rfl
    have htail : drainTail reg o sd = [] := by
      unfold drainTail
      simp [pass2, htext0]
    refine ⟨htail, ?_⟩
    rw [houtsmain, htail]
    unfold ttsSpawns
    rw [List.filterMap_append, List.filterMap_append]
    have h1n := hp1nil
    unfold ttsSpawns at h1n
    simp [h1n, idleOut]
  · intro _hM htext hvp hmode
    have htb : (textToSpeak (drainPass1 reg sd).evs == "") = false := by
      rw [htextevs]
      exact beq_eq_false_iff_ne.mpr htext
    have hmodeb : ((drainCleared sd).mode == "text") = false :=
      beq_eq_false_iff_ne.mpr hmode
    have htail : drainTail reg o sd =
        (if textToSpeak sd.state.outbox ∈ (drainPass1 reg sd).sent then []
         else [.send "server.transcript.final"
           [("text", .vstr (textToSpeak sd.state.outbox)),
            ("role", .vstr "assistant")]]) ++
        [.send "server.voice.start" [],
         .spawnTTS (textToSpeak sd.state.outbox)] := by
      unfold drainTail
      simp [pass2, htb, hmodeb, hvp, htextevs, htext]
    refine ⟨htail, ?_⟩
    rw [houtsmain, htail]
    unfold ttsSpawns
    rw [List.filterMap_append, List.filterMap_append,
      List.filterMap_append]
    have h1n := hp1nil
    unfold ttsSpawns at h1n
    rw [h1n]
    by_cases hmem : textToSpeak sd.state.outbox ∈ (drainPass1 reg sd).sent
    · simp [hmem, idleOut]
    · simp [hmem, idleOut]

/-- C2 witness: a concrete drain of one UI patch followed by one utterance
in a voice-mode session: the patch is delivered first, then the merged
utterance frames, then idle; exactly one synthesis task is spawned with
the merged text. -/
theorem claim_drain_ordering_single_utterance_witness :
    (process_outbox reg0 false sdPatchSay).outs =
      (sdPatchSay.state.outbox.filter
        (fun e => !(e.type == "server.voice.say"))).map
        (deliverOut (drainCleared sdPatchSay)) ++
        drainTail reg0 false sdPatchSay ++ [idleOut] ∧
    drainTail reg0 false sdPatchSay =
      (if textToSpeak sdPatchSay.state.outbox ∈
          (drainPass1 reg0 sdPatchSay).sent then []
       else [.send "server.transcript.final"
         [("text", .vstr (textToSpeak sdPatchSay.state.outbox)),
          ("role", .vstr "assistant")]]) ++
      [.send "server.voice.start" [],
       .spawnTTS (textToSpeak sdPatchSay.state.outbox)] ∧
    ttsSpawns (process_outbox reg0 false sdPatchSay).outs =
      [textToSpeak sdPatchSay.state.outbox] :=
  ⟨(claim_drain_ordering_single_utterance reg0 false sdPatchSay rfl
      (by simp [sdPatchSay, sdEmptyOutbox, initialSessionData])
      (by decide)).1,
   ((claim_drain_ordering_single_utterance reg0 false sdPatchSay rfl
      (by simp [sdPatchSay, sdEmptyOutbox, initialSessionData])
      (by decide)).2.2 (by decide) (by decide) rfl (by decide)).1,
   ((claim_drain_ordering_single_utterance reg0 false sdPatchSay rfl
      (by simp [sdPatchSay, sdEmptyOutbox, initialSessionData])
      (by decide)).2.2 (by decide) (by decide) rfl (by decide)).2⟩

end A2UI
